import Mathlib

/-!
mini-ecommerce: the services as pure functions.

A shallow embedding of the five Express services of the repository
(auth-service, profile/product/inventory services, api-gateway).

* A request handler becomes a function from the request data and the
  service's store to a response and the next store.
* The `await`ed network calls of a handler (the call to the auth service,
  the notification to the product service) become an argument giving the
  outcome of the call, and the handler returns the list of its effects in
  program order.
* JSON values are the inductive type `JsVal`; a JSON number is a rational
  (every finite double is one, and `===`, `<`, `<=` on finite doubles agree
  with the order of the rationals).
* `console.log` / `console.error` lines carry no data that is read back and
  are kept only where they are the sole effect of a branch.
-/

set_option autoImplicit false

namespace MiniEcommerce

/-! ## JavaScript values and strings -/

/-- A JavaScript value as produced by `JSON.parse`, plus `undefined`. -/
inductive JsVal where
  | undefined
  | null
  | bool (b : Bool)
  | num (q : ℚ)
  | str (s : String)
  | arr (items : List JsVal)
  | obj (fields : List (String × JsVal))

/-- The truthiness of a value: what `!v` negates. -/
def JsVal.truthy : JsVal → Bool
  | .undefined => false
  | .null => false
  | .bool b => b
  | .num q => decide (q ≠ 0)
  | .str s => decide (s ≠ "")
  | .arr _ => true
  | .obj _ => true

/-- Own-property lookup in a parsed JSON object. -/
def lookupField (k : String) : List (String × JsVal) → JsVal
  | [] => .undefined
  | (k', v) :: rest => if k' = k then v else lookupField k rest

/-- The property read `v.k` for one of the keys the services read (`valid`,
`user`, `stock`, `username`, `password`): `none` is the TypeError thrown on
`undefined` and `null`; primitives and arrays have no such property. -/
def JsVal.prop (v : JsVal) (k : String) : Option JsVal :=
  match v with
  | .undefined => none
  | .null => none
  | .obj fields => some (lookupField k fields)
  | _ => some .undefined

/-- The destructuring `const { k } = req.body`. `express.json()` leaves
`req.body` an object or an array (or `{}` when there is no JSON body), so
the read does not throw. -/
def bodyField (body : JsVal) (k : String) : JsVal :=
  (body.prop k).getD .undefined

/-- The strict comparison `s === v` against a string `s`. -/
def JsVal.strictEqStr (v : JsVal) (s : String) : Bool :=
  match v with
  | .str t => decide (t = s)
  | _ => false

/-- The test `s.startsWith(p)` on character lists. -/
def startsWith : List Char → List Char → Bool
  | _, [] => true
  | [], _ :: _ => false
  | c :: cs, p :: ps => decide (c = p) && startsWith cs ps

/-- The call `s.split(sep)` for a one-character separator. -/
def splitOn (sep : Char) : List Char → List (List Char)
  | [] => [[]]
  | c :: cs =>
    if c = sep then [] :: splitOn sep cs
    else
      match splitOn sep cs with
      | [] => [[c]]
      | piece :: pieces => (c :: piece) :: pieces

/-- The expression `authHeader.split(' ')[1]`. After the `startsWith('Bearer ')`
guard the array has at least two elements (`split_bearer_length`), so the
default is never used. -/
def headerToken (authHeader : String) : String :=
  String.mk ((splitOn ' ' authHeader.data).getD 1 [])

/-- The guard `!authHeader || !authHeader.startsWith('Bearer ')` of `/logout`
and `/validate`; `req.headers.authorization` is a string or `undefined`. -/
def noBearer : Option String → Bool
  | none => true
  | some h => decide (h = "") || !startsWith h.data "Bearer ".data

/-! ## auth-service (the Credential Authority) -/

/-- A record of the in-memory user store. -/
structure User where
  id : Nat
  username : String
  password : String
  role : String
deriving DecidableEq, Repr

/-- The seed `users` array. -/
def users : List User :=
  [ { id := 1, username := "alice", password := "password123", role := "admin" },
    { id := 2, username := "bob", password := "password456", role := "user" },
    { id := 3, username := "charlie", password := "password789", role := "user" } ]

/-- The default of `JWT_SECRET`. -/
def JWT_SECRET : String := "super-secret-key-change-in-production"

/-- The default of `TOKEN_EXPIRY`. -/
def TOKEN_EXPIRY : String := "1h"

/-- The payload `{ userId, username, role }` handed to `jwt.sign`. -/
structure JwtPayload where
  userId : Nat
  username : String
  role : String
deriving DecidableEq, Repr

/-- The object `jwt.verify` returns: the payload with its `iat` and `exp`. -/
structure JwtClaims where
  userId : Nat
  username : String
  role : String
  iat : Nat
  exp : Nat
deriving DecidableEq, Repr

/-- The two functions of the `jsonwebtoken` package the service calls, read
at a clock value. `verify token secret now` is `some decoded` when the call
returns (the token parses under the secret and is unexpired at `now`) and
`none` when it throws. -/
structure JwtLib where
  sign : JwtPayload → String → String → Nat → String
  verify : String → String → Nat → Option JwtClaims

/-- The `tokenBlacklist` set: a JavaScript `Set` of strings, in insertion
order and without repetition. -/
abbrev Blacklist := List String

/-- The method `Set.prototype.add`. -/
def Blacklist.add (bl : Blacklist) (token : String) : Blacklist :=
  if token ∈ bl then bl else bl ++ [token]

/-- The `user` object of the login response. -/
structure PublicUser where
  id : Nat
  username : String
  role : String
deriving DecidableEq, Repr

/-- The JSON bodies the auth service sends. -/
inductive AuthBody where
  | error (error : String)
  | login (message : String) (token : String) (user : PublicUser)
  | message (message : String)
  | invalid (error : String)
  | valid (user : JwtClaims)
deriving DecidableEq, Repr

/-- A response of the auth service. -/
structure AuthResponse where
  status : Nat
  body : AuthBody
deriving DecidableEq, Repr

/-- The `valid` field of a `/validate` body. -/
def AuthBody.validFlag : AuthBody → Option Bool
  | .invalid _ => some false
  | .valid _ => some true
  | _ => none

/-- The lookup `users.find(u => u.username === username && u.password === password)`. -/
def findUser (username password : JsVal) : Option User :=
  users.find? (fun u => username.strictEqStr u.username && password.strictEqStr u.password)

/-- The handler `POST /login`, at clock value `now`. -/
def login (lib : JwtLib) (body : JsVal) (now : Nat) : AuthResponse :=
  let username := bodyField body "username"
  let password := bodyField body "password"
  if !username.truthy || !password.truthy then
    { status := 400, body := .error "Username and password are required" }
  else
    match findUser username password with
    | none => { status := 401, body := .error "Invalid credentials" }
    | some user =>
      let token := lib.sign { userId := user.id, username := user.username, role := user.role }
        JWT_SECRET TOKEN_EXPIRY now
      { status := 200,
        body := .login "Login successful" token
          { id := user.id, username := user.username, role := user.role } }

/-- The handler `POST /logout`. -/
def logout (bl : Blacklist) (authHeader : Option String) : AuthResponse × Blacklist :=
  if noBearer authHeader then
    ({ status := 400, body := .error "No token provided" }, bl)
  else
    let token := headerToken (authHeader.getD "")
    ({ status := 200, body := .message "Logged out successfully" }, bl.add token)

/-- The handler `GET /validate`, at clock value `now`. -/
def validate (lib : JwtLib) (bl : Blacklist) (authHeader : Option String) (now : Nat) :
    AuthResponse :=
  if noBearer authHeader then
    { status := 401, body := .invalid "No token provided" }
  else
    let token := headerToken (authHeader.getD "")
    if token ∈ bl then
      { status := 401, body := .invalid "Token has been revoked" }
    else
      match lib.verify token JWT_SECRET now with
      | some decoded => { status := 200, body := .valid decoded }
      | none => { status := 401, body := .invalid "Invalid or expired token" }

/-- A request to the auth service, with the clock value it is served at. -/
inductive AuthRequest where
  | login (body : JsVal) (now : Nat)
  | logout (authHeader : Option String)
  | validate (authHeader : Option String) (now : Nat)

/-- One request served by the auth service: the response and the next
revocation set. -/
def authStep (lib : JwtLib) (bl : Blacklist) : AuthRequest → AuthResponse × Blacklist
  | .login body now => (login lib body now, bl)
  | .logout h => logout bl h
  | .validate h now => (validate lib bl h now, bl)

/-- The revocation set after a sequence of requests. -/
def authRun (lib : JwtLib) (bl : Blacklist) : List AuthRequest → Blacklist
  | [] => bl
  | r :: rs => authRun lib (authStep lib bl r).2 rs

/-! ## The remote verification middleware of the resource services -/

/-- What the two awaits of `validateToken` yield: the `fetch` of
`AUTH_SERVICE_URL/validate` rejects (`transportFailure`), or a response of
some status arrives and `response.json()` rejects (`notJson`) or yields the
parsed body (`json`). -/
inductive AuthorityReply where
  | transportFailure
  | notJson (status : Nat)
  | json (status : Nat) (data : JsVal)

/-- How the middleware ends: it sends `res.status(status).json({ error })`,
or it sets `req.user` and calls `next()`. -/
inductive Verdict where
  | respond (status : Nat) (error : String)
  | next (user : JsVal)

/-- The result of the middleware: the `Authorization` headers it forwarded
to the auth service, in order, and how it ended. -/
structure MiddlewareResult where
  authorityCalls : List String
  verdict : Verdict

/-- The middleware `validateToken`, the same function in the profile,
product and inventory services (the log tag apart). `reply` is what the
auth service call yields if it is made. -/
def validateToken (authHeader : Option String) (reply : AuthorityReply) : MiddlewareResult :=
  match authHeader with
  | none => { authorityCalls := [], verdict := .respond 401 "Authorization header required" }
  | some h =>
    if h = "" then
      { authorityCalls := [], verdict := .respond 401 "Authorization header required" }
    else
      match reply with
      | .transportFailure =>
        { authorityCalls := [h], verdict := .respond 503 "Auth service unavailable" }
      | .notJson _ =>
        { authorityCalls := [h], verdict := .respond 503 "Auth service unavailable" }
      | .json _ data =>
        match data.prop "valid" with
        | none => { authorityCalls := [h], verdict := .respond 503 "Auth service unavailable" }
        | some valid =>
          if !valid.truthy then
            { authorityCalls := [h], verdict := .respond 401 "Invalid token" }
          else
            { authorityCalls := [h], verdict := .next ((data.prop "user").getD .undefined) }

/-! ## inventory-service -/

/-- The value of `parseInt(req.params.productId)`: an integral number,
`NaN`, or an infinity (for a digit string beyond the range of a double). It
is only used as a property key of the store and copied into new records. -/
inductive ProductKey where
  | int (n : Int)
  | nan
  | infinity (negative : Bool)
deriving DecidableEq

/-- A record of the inventory store. -/
structure StockRecord where
  productId : ProductKey
  stock : ℚ
  warehouse : String
deriving DecidableEq

/-- The `inventory` object: a finite map from `String(productId)` to records. -/
abbrev Inventory := ProductKey → Option StockRecord

/-- The seed content of `inventory`. -/
def seedInventory : Inventory := fun k =>
  if k = .int 1 then some { productId := .int 1, stock := 50, warehouse := "A" }
  else if k = .int 2 then some { productId := .int 2, stock := 30, warehouse := "B" }
  else if k = .int 3 then some { productId := .int 3, stock := 100, warehouse := "A" }
  else if k = .int 4 then some { productId := .int 4, stock := 15, warehouse := "C" }
  else if k = .int 5 then some { productId := .int 5, stock := 75, warehouse := "A" }
  else if k = .int 6 then some { productId := .int 6, stock := 200, warehouse := "B" }
  else if k = .int 7 then some { productId := .int 7, stock := 8, warehouse := "C" }
  else if k = .int 8 then some { productId := .int 8, stock := 0, warehouse := "B" }
  else none

/-- The assignment `inventory[productId] = record`. -/
def Inventory.set (inventory : Inventory) (productId : ProductKey) (record : StockRecord) :
    Inventory :=
  fun k => if k = productId then some record else inventory k

/-- A sample `parseInt` for evaluating the handlers: optional leading
blanks, an optional sign, then the longest run of decimal digits; `NaN`
when there is no digit. (It agrees with `parseInt` on strings without a
`0x` radix marker whose value is below 2^53.) -/
def parseIntDecimal (s : String) : ProductKey :=
  let cs := s.data.dropWhile (fun c => c = ' ' || c = '\t' || c = '\n')
  let signed : Bool × List Char :=
    match cs with
    | '-' :: r => (true, r)
    | '+' :: r => (false, r)
    | r => (false, r)
  let digits := signed.2.takeWhile Char.isDigit
  if digits = [] then .nan
  else
    let n : Nat := digits.foldl (fun acc c => 10 * acc + (c.toNat - 48)) 0
    .int (if signed.1 then -(n : Int) else (n : Int))

/-- How the awaited `fetch` of the notify endpoint settles: a response of
some status arrives, or the call rejects. -/
inductive NotifyOutcome where
  | responded (status : Nat)
  | transportFailure
deriving DecidableEq

/-- The property `response.ok`. -/
def NotifyOutcome.ok : NotifyOutcome → Bool
  | .responded status => decide (200 ≤ status ∧ status ≤ 299)
  | .transportFailure => false

/-- The JSON bodies the inventory service sends. -/
inductive InventoryBody where
  | error (error : String)
  | record (item : StockRecord)
  | updated (message : String) (inventory : StockRecord)
deriving DecidableEq

/-- A response of the inventory service. -/
structure InventoryResponse where
  status : Nat
  body : InventoryBody
deriving DecidableEq

/-- The effects of serving one inventory request, in program order. -/
inductive Event where
  | authorityCall (authHeader : String)
  | storeWrite (productId : ProductKey) (record : StockRecord)
  | notifyDispatched (productId : ProductKey) (stock : ℚ) (message : String)
  | notifySettled (outcome : NotifyOutcome)
  | consoleLog (line : String)
  | consoleError (line : String)
  | respond (response : InventoryResponse)
deriving DecidableEq

/-- The `message` computed at the top of `notifyProductService`. -/
def notifyMessage (stock : ℚ) : String :=
  if stock = 0 then "Product is out of stock"
  else if stock ≤ 5 then "Product has low stock"
  else "Stock level updated"

/-- The function `notifyProductService(productId, stock)`: the POST is
dispatched, the `await` settles with `outcome`, and every branch only writes
a console line; the surrounding `try`/`catch` lets nothing escape. -/
def notifyProductService (productId : ProductKey) (stock : ℚ) (outcome : NotifyOutcome) :
    List Event :=
  let message := notifyMessage stock
  match outcome with
  | .responded status =>
    if (NotifyOutcome.responded status).ok then
      [.notifyDispatched productId stock message, .notifySettled outcome,
        .consoleLog "Notified Product Service"]
    else
      [.notifyDispatched productId stock message, .notifySettled outcome,
        .consoleError "Product Service notification failed"]
  | .transportFailure =>
    [.notifyDispatched productId stock message, .notifySettled outcome,
      .consoleError "Could not reach Product Service"]

/-- What serving a request leaves behind: the effects in program order and
the store. -/
structure HandlerResult where
  events : List Event
  store : Inventory

/-- The handler `GET /inventory/:productId`. -/
def getInventory (parseInt : String → ProductKey) (inventory : Inventory) (param : String) :
    InventoryResponse :=
  let productId := parseInt param
  match inventory productId with
  | none => { status := 404, body := .error "Inventory record not found for this product" }
  | some item => { status := 200, body := .record item }

/-- The handler of `PUT /inventory/:productId`, entered after
`validateToken` has called `next()`. -/
def putInventory (parseInt : String → ProductKey) (inventory : Inventory) (param : String)
    (body : JsVal) (outcome : NotifyOutcome) : HandlerResult :=
  let productId := parseInt param
  match bodyField body "stock" with
  | .undefined =>
    { events := [.respond { status := 400, body := .error "Stock value is required" }],
      store := inventory }
  | .null =>
    { events := [.respond { status := 400, body := .error "Stock value is required" }],
      store := inventory }
  | .num stock =>
    if stock < 0 then
      { events := [.respond { status := 400, body := .error "Stock must be a non-negative number" }],
        store := inventory }
    else
      let record : StockRecord :=
        match inventory productId with
        | none => { productId := productId, stock := stock, warehouse := "A" }
        | some item => { item with stock := stock }
      let inventory1 := inventory.set productId record
      { events :=
          [.storeWrite productId record] ++ notifyProductService productId stock outcome ++
            [.respond { status := 200, body := .updated "Inventory updated" record }],
        store := inventory1 }
  | _ =>
    { events := [.respond { status := 400, body := .error "Stock must be a non-negative number" }],
      store := inventory }

/-- The route `app.put('/inventory/:productId', validateToken, handler)`. -/
def putInventoryRoute (parseInt : String → ProductKey) (inventory : Inventory)
    (authHeader : Option String) (reply : AuthorityReply) (param : String) (body : JsVal)
    (outcome : NotifyOutcome) : HandlerResult :=
  let mw := validateToken authHeader reply
  match mw.verdict with
  | .respond status error =>
    { events := mw.authorityCalls.map Event.authorityCall ++
        [.respond { status := status, body := .error error }],
      store := inventory }
  | .next _ =>
    let r := putInventory parseInt inventory param body outcome
    { events := mw.authorityCalls.map Event.authorityCall ++ r.events, store := r.store }

/-- The response sent while serving a request: the last `respond` effect. -/
def responseOf : List Event → Option InventoryResponse
  | [] => none
  | .respond r :: rest => (responseOf rest).orElse (fun _ => some r)
  | _ :: rest => responseOf rest

/-! ## api-gateway -/

/-- The defaults of the four backend base URLs. -/
def AUTH_SERVICE_URL : String := "http://localhost:3001"

/-- The default of `PROFILE_SERVICE_URL`. -/
def PROFILE_SERVICE_URL : String := "http://localhost:3002"

/-- The default of `PRODUCT_SERVICE_URL`. -/
def PRODUCT_SERVICE_URL : String := "http://localhost:3003"

/-- The default of `INVENTORY_SERVICE_URL`. -/
def INVENTORY_SERVICE_URL : String := "http://localhost:3004"

/-- The mount `app.use(mount, fn)` of Express 4 on a request path (no query
string, spelled in the case of the mount): `none` when the layer does not
match, else the `req.url` that `fn` sees, which is the path with the matched
mount removed and a leading slash ensured. The layer matches `mount`,
optionally one more slash, and then requires a slash or the end. -/
def mountedUrl (mount originalUrl : String) : Option String :=
  if startsWith originalUrl.data mount.data then
    match originalUrl.data.drop mount.data.length with
    | [] => some "/"
    | ['/'] => some "/"
    | '/' :: '/' :: rest => some (String.mk ('/' :: rest))
    | '/' :: rest => some (String.mk ('/' :: rest))
    | _ => none
  else none

/-- One entry `{ '^pattern': replacement }` of a `pathRewrite` table whose
pattern has no regular-expression operator besides the anchor: the call
`path.replace(new RegExp('^' + pattern), replacement)`. -/
def pathRewrite (pattern replacement path : String) : String :=
  if startsWith path.data pattern.data then
    String.mk (replacement.data ++ path.data.drop pattern.data.length)
  else path

/-- A proxied request: the backend base URL and the path sent to it. -/
structure Proxied where
  target : String
  path : String
deriving DecidableEq, Repr

/-- The middleware `createProxy(target, { '^pattern': replacement })` run on
a request. The options object with the `on: { proxyReq, error }` handlers is
that of http-proxy-middleware 3, which rewrites `req.url` as Express hands
it to the middleware, and forwards it to `target`. -/
def createProxy (target pattern replacement : String) (reqUrl : String) : Proxied :=
  { target := target, path := pathRewrite pattern replacement reqUrl }

/-- The four lines `app.use(mount, createProxy(target, rule))`, in order:
mount, target, pattern and replacement. -/
def proxyRoutes : List (String × String × String × String) :=
  [ ("/api/auth", AUTH_SERVICE_URL, "/api/auth", ""),
    ("/api/profile", PROFILE_SERVICE_URL, "/api/profile", "/profile"),
    ("/api/products", PRODUCT_SERVICE_URL, "/api/products", "/products"),
    ("/api/inventory", INVENTORY_SERVICE_URL, "/api/inventory", "/inventory") ]

/-- The first of the given mounts that matches the request path, run on it:
the proxy middleware receives the mount-relative `req.url`. -/
def routeThrough : List (String × String × String × String) → String → Option Proxied
  | [], _ => none
  | (mount, target, pattern, replacement) :: rest, originalUrl =>
    match mountedUrl mount originalUrl with
    | some reqUrl => some (createProxy target pattern replacement reqUrl)
    | none => routeThrough rest originalUrl

/-- The gateway on a request path under `/api`: where the request is proxied
to, or `none` when no proxy mount matches (the 404 of `/api/*`). -/
def gateway (originalUrl : String) : Option Proxied :=
  routeThrough proxyRoutes originalUrl

/-- The middleware of the 2.x line of http-proxy-middleware, for
comparison: it first restores `req.url = req.originalUrl`, so the rule is
applied to the full request path. -/
def createProxyLegacy (target pattern replacement : String) (originalUrl : String) : Proxied :=
  { target := target, path := pathRewrite pattern replacement originalUrl }

/-- The gateway with the 2.x middleware in place of `createProxy`. -/
def routeThroughLegacy : List (String × String × String × String) → String → Option Proxied
  | [], _ => none
  | (mount, target, pattern, replacement) :: rest, originalUrl =>
    match mountedUrl mount originalUrl with
    | some _ => some (createProxyLegacy target pattern replacement originalUrl)
    | none => routeThroughLegacy rest originalUrl

/-! ## product-service -/

/-- The value of `parseFloat(...)`: a number, or `NaN` (`none`). -/
abbrev JsNumber := Option ℚ

/-- A record of the product store. The fields copied from a request body
hold whatever JSON value the body gave. -/
structure Product where
  id : Nat
  name : JsVal
  description : JsVal
  price : JsNumber
  category : JsVal
  image : JsVal

/-- The seed `products` array. -/
def seedProducts : List Product :=
  [ { id := 1, name := .str "Wireless Headphones",
      description := .str "Noise-cancelling Bluetooth headphones", price := some 79.99,
      category := .str "Electronics",
      image := .str "https://via.placeholder.com/200?text=Headphones" },
    { id := 2, name := .str "Running Shoes",
      description := .str "Lightweight breathable running shoes", price := some 129.99,
      category := .str "Footwear", image := .str "https://via.placeholder.com/200?text=Shoes" },
    { id := 3, name := .str "Coffee Maker",
      description := .str "Programmable 12-cup coffee maker", price := some 49.99,
      category := .str "Kitchen", image := .str "https://via.placeholder.com/200?text=Coffee" },
    { id := 4, name := .str "Backpack",
      description := .str "Water-resistant laptop backpack", price := some 59.99,
      category := .str "Accessories",
      image := .str "https://via.placeholder.com/200?text=Backpack" },
    { id := 5, name := .str "Desk Lamp",
      description := .str "LED desk lamp with adjustable brightness", price := some 34.99,
      category := .str "Home Office", image := .str "https://via.placeholder.com/200?text=Lamp" },
    { id := 6, name := .str "Yoga Mat",
      description := .str "Non-slip exercise yoga mat", price := some 24.99,
      category := .str "Fitness", image := .str "https://via.placeholder.com/200?text=YogaMat" },
    { id := 7, name := .str "Mechanical Keyboard",
      description := .str "RGB mechanical gaming keyboard", price := some 89.99,
      category := .str "Electronics",
      image := .str "https://via.placeholder.com/200?text=Keyboard" },
    { id := 8, name := .str "Water Bottle",
      description := .str "Insulated stainless steel water bottle", price := some 19.99,
      category := .str "Accessories",
      image := .str "https://via.placeholder.com/200?text=Bottle" } ]

/-- The mutable state of the product service: the `products` array and the
counter `nextId`. -/
structure ProductStore where
  products : List Product
  nextId : Nat

/-- The state at start-up: the seed array and `nextId = products.length + 1`. -/
def seedProductStore : ProductStore :=
  { products := seedProducts, nextId := seedProducts.length + 1 }

/-- The expression `a || b`. -/
def JsVal.orElse (a b : JsVal) : JsVal :=
  if a.truthy then a else b

/-- The call `parseFloat(price)`. The builtin reads a decimal literal off
the front of `String(price)`: for a number that is the number itself; for
any other value it is the argument `parseText` (`none` is `NaN`). -/
def parseFloat (parseText : JsVal → JsNumber) : JsVal → JsNumber
  | .num q => some q
  | v => parseText v

/-- The JSON bodies the product service sends on `POST /products`;
`uncaught` is the answer of the Express error handler to an error thrown
in a middleware. -/
inductive ProductBody where
  | error (error : String)
  | product (product : Product)
  | uncaught

/-- A response of the product service. -/
structure ProductResponse where
  status : Nat
  body : ProductBody

/-- The middleware `requireAdmin` on the `req.user` set by `validateToken`:
`none` is `next()`, `some r` the response it sends. The read `req.user.role`
throws when `req.user` is `undefined` or `null`, which Express answers
with 500. -/
def requireAdmin (user : JsVal) : Option ProductResponse :=
  match user.prop "role" with
  | none => some { status := 500, body := .uncaught }
  | some role =>
    if !role.strictEqStr "admin" then
      some { status := 403, body := .error "Admin access required" }
    else none

/-- The handler of `POST /products`, entered after `validateToken` and
`requireAdmin` have called `next()`. -/
def postProducts (parseText : JsVal → JsNumber) (store : ProductStore) (body : JsVal) :
    ProductResponse × ProductStore :=
  let name := bodyField body "name"
  let description := bodyField body "description"
  let price := bodyField body "price"
  let category := bodyField body "category"
  let image := bodyField body "image"
  if !name.truthy || !price.truthy then
    ({ status := 400, body := .error "Name and price are required" }, store)
  else
    let product : Product :=
      { id := store.nextId,
        name := name,
        description := description.orElse (.str ""),
        price := parseFloat parseText price,
        category := category.orElse (.str "General"),
        image := image.orElse (.str "https://via.placeholder.com/200?text=Product") }
    ({ status := 201, body := .product product },
      { products := store.products ++ [product], nextId := store.nextId + 1 })

/-- The route `app.post('/products', validateToken, requireAdmin, handler)`. -/
def postProductsRoute (parseText : JsVal → JsNumber) (store : ProductStore)
    (authHeader : Option String) (reply : AuthorityReply) (body : JsVal) :
    ProductResponse × ProductStore :=
  match (validateToken authHeader reply).verdict with
  | .respond status error => ({ status := status, body := .error error }, store)
  | .next user =>
    match requireAdmin user with
    | some response => (response, store)
    | none => postProducts parseText store body

/-- A `POST /products` request: the header, what the auth service answers
for it, and the body. -/
structure ProductRequest where
  authHeader : Option String
  reply : AuthorityReply
  body : JsVal

/-- The state of the product service after a sequence of `POST /products`
requests (no other route writes `products` or `nextId`). -/
def productRun (parseText : JsVal → JsNumber) (store : ProductStore) :
    List ProductRequest → ProductStore
  | [] => store
  | r :: rs =>
    productRun parseText (postProductsRoute parseText store r.authHeader r.reply r.body).2 rs

/-! ## Specification vocabulary and sample inputs -/

/-- The contract of `jsonwebtoken` at one issued token: verified under the
signing secret at clock value `t1`, before it expires, the token signed at
`t0` yields the signed payload. -/
def JwtLib.roundTrips (lib : JwtLib) (payload : JwtPayload) (secret expiresIn : String)
    (t0 t1 : Nat) : Prop :=
  ∃ c, lib.verify (lib.sign payload secret expiresIn t0) secret t1 = some c ∧
    c.userId = payload.userId ∧ c.username = payload.username ∧ c.role = payload.role

/-- A stand-in for `jsonwebtoken` that issues one fixed token and accepts
it until clock value 3600. -/
def sampleJwt : JwtLib where
  sign := fun _ _ _ _ => "h.p.s"
  verify := fun token _ now =>
    if token = "h.p.s" ∧ now < 3600 then
      some { userId := 1, username := "alice", role := "admin", iat := 0, exp := 3600 }
    else none

/-- The value of `data.valid` when both awaits and the property read
succeed; `none` when the fetch rejects, the body is not JSON, or the body is
JSON `null` (the property read throws). -/
def AuthorityReply.validField : AuthorityReply → Option JsVal
  | .json _ data => data.prop "valid"
  | _ => none

/-- The value of `data.user` of a parsed body. -/
def AuthorityReply.userField : AuthorityReply → JsVal
  | .json _ data => (data.prop "user").getD .undefined
  | _ => .undefined

/-- A well-formed verification answer, in the words of the interface of
`/validate`: a JSON object whose `valid` field is a boolean. -/
def wellFormedAnswer : JsVal → Bool
  | .obj fields =>
    match lookupField "valid" fields with
    | .bool _ => true
    | _ => false
  | _ => false

/-- The position of the first effect of a kind in a run. -/
def firstIndex (p : Event → Bool) : List Event → Option Nat
  | [] => none
  | e :: rest => if p e then some 0 else (firstIndex p rest).map (· + 1)

/-- The effect is the response being sent. -/
def Event.isRespond : Event → Bool
  | .respond _ => true
  | _ => false

/-- The effect is the awaited notification call settling. -/
def Event.isNotifySettled : Event → Bool
  | .notifySettled _ => true
  | _ => false

/-- The effect is the notification being dispatched. -/
def Event.isNotifyDispatched : Event → Bool
  | .notifyDispatched _ _ _ => true
  | _ => false

/-- The effect is a write to the store. -/
def Event.isStoreWrite : Event → Bool
  | .storeWrite _ _ => true
  | _ => false

/-- The effect is a console line. -/
def Event.isConsole : Event → Bool
  | .consoleLog _ => true
  | .consoleError _ => true
  | _ => false

/-- The record an accepted write leaves under its key. -/
def writtenRecord (inventory : Inventory) (productId : ProductKey) (stock : ℚ) : StockRecord :=
  match inventory productId with
  | none => { productId := productId, stock := stock, warehouse := "A" }
  | some item => { item with stock := stock }

/-- A sample answer of the auth service for a valid token. -/
def sampleValidReply : AuthorityReply :=
  .json 200 (.obj [("valid", .bool true),
    ("user", .obj [("userId", .num 2), ("username", .str "bob"), ("role", .str "user")])])

/-- A field of the body is present: the destructured value is not
`undefined`. -/
def JsVal.present : JsVal → Bool
  | .undefined => false
  | _ => true

/-- The digits of a numeral read as a natural number. -/
def digitsValue (digits : List Char) : Nat :=
  digits.foldl (fun acc c => 10 * acc + (c.toNat - 48)) 0

/-- A sample of `parseFloat` on text: optional leading blanks, an optional
sign, digits with an optional fraction; `NaN` when no digit is read. (It
agrees with `parseFloat` on strings whose numeral has no exponent and is
not `Infinity`.) -/
def parseFloatString (s : String) : JsNumber :=
  let cs := s.data.dropWhile (fun c => c = ' ' || c = '\t' || c = '\n')
  let signed : Bool × List Char :=
    match cs with
    | '-' :: r => (true, r)
    | '+' :: r => (false, r)
    | r => (false, r)
  let whole := signed.2.takeWhile Char.isDigit
  let fraction :=
    match signed.2.dropWhile Char.isDigit with
    | '.' :: r => r.takeWhile Char.isDigit
    | _ => []
  if whole = [] ∧ fraction = [] then none
  else
    let magnitude : ℚ := (digitsValue (whole ++ fraction) : ℚ) / (10 : ℚ) ^ fraction.length
    some (if signed.1 then -magnitude else magnitude)

/-- A sample of `parseFloat` on the values that are not numbers: a string is
read by `parseFloatString`; `String(v)` of a boolean, `null`, `undefined` or
an object starts with no numeral; an array is read through its first
element when that is a number or a string. -/
def sampleParseText : JsVal → JsNumber
  | .str s => parseFloatString s
  | .arr (.num q :: _) => some q
  | .arr (.str s :: _) => parseFloatString s
  | _ => none

/-- A sample answer of the auth service for alice's token. -/
def sampleAdminReply : AuthorityReply :=
  .json 200 (.obj [("valid", .bool true),
    ("user", .obj [("userId", .num 1), ("username", .str "alice"), ("role", .str "admin")])])

/-- The product of a 201 answer. -/
def ProductResponse.created (r : ProductResponse) : Option Product :=
  match r.body with
  | .product p => some p
  | _ => none

/-- The numbering of a store: every id is below `nextId`, some record has
the id just before it, and `nextId` is the length of the array plus one. -/
def ProductStore.Numbered (store : ProductStore) : Prop :=
  (∀ q ∈ store.products, q.id < store.nextId) ∧
  (∃ q ∈ store.products, q.id + 1 = store.nextId) ∧
  store.nextId = store.products.length + 1

/-! ## Strings: what the header parsing computes -/

theorem startsWith_append (p x : List Char) : startsWith (p ++ x) p = true := by
  induction p with
  | nil => cases x <;> simp [startsWith]
  | cons c cs ih => simp [startsWith, ih]

theorem splitOn_ne_nil (sep : Char) (s : List Char) : splitOn sep s ≠ [] := by
  cases s with
  | nil => simp [splitOn]
  | cons c cs =>
    unfold splitOn
    split
    · simp
    · split <;> simp

theorem splitOn_word (sep : Char) (w r : List Char) (hw : sep ∉ w) :
    splitOn sep (w ++ sep :: r) = w :: splitOn sep r := by
  induction w with
  | nil => simp [splitOn]
  | cons c cs ih =>
    have hc : c ≠ sep := fun h => hw (by simp [h])
    have hcs : sep ∉ cs := fun h => hw (by simp [h])
    simp [splitOn, hc, ih hcs]

theorem splitOn_single (sep : Char) (w : List Char) (hw : sep ∉ w) :
    splitOn sep w = [w] := by
  induction w with
  | nil => simp [splitOn]
  | cons c cs ih =>
    have hc : c ≠ sep := fun h => hw (by simp [h])
    have hcs : sep ∉ cs := fun h => hw (by simp [h])
    simp [splitOn, hc, ih hcs]

theorem bearer_data (t : String) :
    ("Bearer " ++ t).data = ['B', 'e', 'a', 'r', 'e', 'r'] ++ ' ' :: t.data := by
  rw [String.data_append]
  rfl

theorem startsWith_split (h p : List Char) (hp : startsWith h p = true) :
    ∃ r, h = p ++ r := by
  induction p generalizing h with
  | nil => exact ⟨h, rfl⟩
  | cons c cs ih =>
    cases h with
    | nil => simp [startsWith] at hp
    | cons d ds =>
      simp only [startsWith, Bool.and_eq_true, decide_eq_true_eq] at hp
      obtain ⟨r, hr⟩ := ih ds hp.2
      exact ⟨r, by rw [hp.1, hr]; rfl⟩

/-- A header that passes the `startsWith('Bearer ')` guard splits into at
least two pieces, so `split(' ')[1]` is a string. -/
theorem split_bearer_length (h : List Char) (hb : startsWith h "Bearer ".data = true) :
    2 ≤ (splitOn ' ' h).length := by
  obtain ⟨r, hr⟩ := startsWith_split h _ hb
  have hd : "Bearer ".data ++ r = ['B', 'e', 'a', 'r', 'e', 'r'] ++ ' ' :: r := rfl
  rw [hr, hd, splitOn_word ' ' _ r (by decide)]
  have := splitOn_ne_nil ' ' r
  cases hsp : splitOn ' ' r with
  | nil => exact absurd hsp this
  | cons a b => simp

/-- A header `Bearer t` passes the guard of `/logout` and `/validate`. -/
theorem noBearer_bearer (t : String) : noBearer (some ("Bearer " ++ t)) = false := by
  have h1 : ("Bearer " ++ t) ≠ "" := by
    intro h
    have := congrArg String.data h
    rw [bearer_data] at this
    simp at this
  have h2 : startsWith ("Bearer " ++ t).data "Bearer ".data = true := by
    rw [String.data_append]
    exact startsWith_append _ _
  show (decide ("Bearer " ++ t = "") || !startsWith ("Bearer " ++ t).data "Bearer ".data) = false
  rw [h2]
  simp [h1]

/-- The token read from `Bearer t` is `t` when `t` has no blank. -/
theorem headerToken_bearer (t : String) (ht : ' ' ∉ t.data) :
    headerToken ("Bearer " ++ t) = t := by
  unfold headerToken
  rw [bearer_data, splitOn_word ' ' _ _ (by decide), splitOn_single ' ' _ ht]
  rfl

/-! ## auth-service: the revocation set -/

theorem Blacklist.mem_add_self (bl : Blacklist) (t : String) : t ∈ bl.add t := by
  unfold Blacklist.add
  split <;> simp_all

theorem Blacklist.mem_add_of_mem (bl : Blacklist) (t x : String) (hx : x ∈ bl) :
    x ∈ bl.add t := by
  unfold Blacklist.add
  split <;> simp_all

theorem Blacklist.add_of_mem (bl : Blacklist) (t : String) (ht : t ∈ bl) : bl.add t = bl := by
  simp [Blacklist.add, ht]

/-- No request removes a token from the revocation set. -/
theorem authStep_mono (lib : JwtLib) (bl : Blacklist) (r : AuthRequest) (x : String)
    (hx : x ∈ bl) : x ∈ (authStep lib bl r).2 := by
  cases r with
  | login body now => exact hx
  | validate h now => exact hx
  | logout h =>
    simp only [authStep, logout]
    split
    · exact hx
    · exact Blacklist.mem_add_of_mem _ _ _ hx

theorem authRun_mono (lib : JwtLib) (rs : List AuthRequest) (bl : Blacklist) (x : String)
    (hx : x ∈ bl) : x ∈ authRun lib bl rs := by
  induction rs generalizing bl with
  | nil => exact hx
  | cons r rs ih => exact ih _ (authStep_mono lib bl r x hx)

/-! ## auth-service: verification, revocation, issuance -/

/-- C1. `GET /validate` answers 200 `valid: true` with the decoded principal
exactly when the header passes the bearer guard, the token read from it is
absent from the revocation set and `jwt.verify` returns (the token parses
under the signing secret and is unexpired). Every other case is a 401
`valid: false` with its reason: no token, revoked, invalid or expired. A
token that is in the revocation set is answered `revoked` whatever
`jwt.verify` would say of it. -/
theorem validate_iff_unrevoked_verified (lib : JwtLib) (bl : Blacklist)
    (authHeader : Option String) (now : Nat) :
    (∀ decoded, validate lib bl authHeader now = ⟨200, .valid decoded⟩ ↔
      (noBearer authHeader = false ∧ headerToken (authHeader.getD "") ∉ bl ∧
        lib.verify (headerToken (authHeader.getD "")) JWT_SECRET now = some decoded)) ∧
    (validate lib bl authHeader now = ⟨401, .invalid "No token provided"⟩ ↔
      noBearer authHeader = true) ∧
    (validate lib bl authHeader now = ⟨401, .invalid "Token has been revoked"⟩ ↔
      (noBearer authHeader = false ∧ headerToken (authHeader.getD "") ∈ bl)) ∧
    (validate lib bl authHeader now = ⟨401, .invalid "Invalid or expired token"⟩ ↔
      (noBearer authHeader = false ∧ headerToken (authHeader.getD "") ∉ bl ∧
        lib.verify (headerToken (authHeader.getD "")) JWT_SECRET now = none)) := by
  unfold validate
  by_cases hb : noBearer authHeader = true
  · simp [hb]
  · have hb' : noBearer authHeader = false := by simpa using hb
    by_cases hm : headerToken (authHeader.getD "") ∈ bl
    · simp [hb', hm]
    · cases hv : lib.verify (headerToken (authHeader.getD "")) JWT_SECRET now with
      | none => simp [hb', hm, hv]
      | some d => simp [hb', hm, hv]

theorem logout_of_revoked (bl : Blacklist) (t : String)
    (ht : headerToken ("Bearer " ++ t) ∈ bl) :
    logout bl (some ("Bearer " ++ t)) = (⟨200, .message "Logged out successfully"⟩, bl) := by
  simp only [logout, noBearer_bearer t, Bool.false_eq_true, if_false, Option.getD_some]
  rw [Blacklist.add_of_mem _ _ ht]

/-- C2. Once `/logout` has been called with `Bearer t`, `/validate` of
`Bearer t` answers 401 `valid: false` (revoked) after any sequence of later
login, logout and validate requests and at any clock value, and a further
`/logout` with `Bearer t` answers 200 and leaves the revocation set as it
is. -/
theorem revoked_stays_revoked (lib : JwtLib) (bl : Blacklist) (t : String)
    (later : List AuthRequest) (now : Nat) :
    validate lib (authRun lib (logout bl (some ("Bearer " ++ t))).2 later)
        (some ("Bearer " ++ t)) now = ⟨401, .invalid "Token has been revoked"⟩ ∧
    (validate lib (authRun lib (logout bl (some ("Bearer " ++ t))).2 later)
        (some ("Bearer " ++ t)) now).body.validFlag = some false ∧
    logout (authRun lib (logout bl (some ("Bearer " ++ t))).2 later) (some ("Bearer " ++ t)) =
      (⟨200, .message "Logged out successfully"⟩,
        authRun lib (logout bl (some ("Bearer " ++ t))).2 later) ∧
    logout (logout bl (some ("Bearer " ++ t))).2 (some ("Bearer " ++ t)) =
      (⟨200, .message "Logged out successfully"⟩, (logout bl (some ("Bearer " ++ t))).2) := by
  have hnb := noBearer_bearer t
  have h1 : (logout bl (some ("Bearer " ++ t))).2 = bl.add (headerToken ("Bearer " ++ t)) := by
    simp [logout, hnb]
  have hmem1 : headerToken ("Bearer " ++ t) ∈ (logout bl (some ("Bearer " ++ t))).2 := by
    rw [h1]
    exact Blacklist.mem_add_self _ _
  have hmem : headerToken ("Bearer " ++ t) ∈
      authRun lib (logout bl (some ("Bearer " ++ t))).2 later :=
    authRun_mono lib later _ _ hmem1
  have hval : validate lib (authRun lib (logout bl (some ("Bearer " ++ t))).2 later)
      (some ("Bearer " ++ t)) now = ⟨401, .invalid "Token has been revoked"⟩ := by
    simp [validate, hnb, hmem]
  refine ⟨hval, ?_, ?_, ?_⟩
  · rw [hval]
    rfl
  · exact logout_of_revoked _ t hmem
  · exact logout_of_revoked _ t hmem1

/-- C3. For a username and password equal to those of a stored principal
`u`, `/login` answers 200 with a token and the public view `{id, username,
role}` of `u`; presented to `/validate` while unrevoked and unexpired (the
library verifies its own compact, blank-free token), that token yields
200 `valid: true` with a principal whose `userId`, `username` and `role` are
those of `u`. -/
theorem login_then_validate (lib : JwtLib) (bl : Blacklist) (u : User) (body : JsVal)
    (t0 t1 : Nat)
    (hu : u ∈ users)
    (hname : bodyField body "username" = .str u.username)
    (hpass : bodyField body "password" = .str u.password)
    (hcompact : ' ' ∉ (lib.sign ⟨u.id, u.username, u.role⟩ JWT_SECRET TOKEN_EXPIRY t0).data)
    (hlib : lib.roundTrips ⟨u.id, u.username, u.role⟩ JWT_SECRET TOKEN_EXPIRY t0 t1)
    (hfresh : lib.sign ⟨u.id, u.username, u.role⟩ JWT_SECRET TOKEN_EXPIRY t0 ∉ bl) :
    login lib body t0 =
      ⟨200, .login "Login successful"
        (lib.sign ⟨u.id, u.username, u.role⟩ JWT_SECRET TOKEN_EXPIRY t0)
        ⟨u.id, u.username, u.role⟩⟩ ∧
    ∃ c, validate lib bl
        (some ("Bearer " ++ lib.sign ⟨u.id, u.username, u.role⟩ JWT_SECRET TOKEN_EXPIRY t0)) t1 =
        ⟨200, .valid c⟩ ∧
      c.userId = u.id ∧ c.username = u.username ∧ c.role = u.role := by
  obtain ⟨c, hc, hid, hnm, hrl⟩ := hlib
  refine ⟨?_, c, ?_, hid, hnm, hrl⟩
  · have hfind : findUser (.str u.username) (.str u.password) = some u := by
      simp only [users, List.mem_cons, List.mem_singleton, List.not_mem_nil, or_false] at hu
      rcases hu with rfl | rfl | rfl <;> decide
    have hn : u.username ≠ "" := by
      simp only [users, List.mem_cons, List.mem_singleton, List.not_mem_nil, or_false] at hu
      rcases hu with rfl | rfl | rfl <;> decide
    have hp : u.password ≠ "" := by
      simp only [users, List.mem_cons, List.mem_singleton, List.not_mem_nil, or_false] at hu
      rcases hu with rfl | rfl | rfl <;> decide
    simp [login, hname, hpass, JsVal.truthy, hn, hp, hfind]
  · simp [validate, noBearer_bearer, headerToken_bearer _ hcompact, hfresh, hc]

theorem login_then_validate_witness :
    login sampleJwt (.obj [("username", .str "alice"), ("password", .str "password123")]) 0 =
      ⟨200, .login "Login successful" "h.p.s" ⟨1, "alice", "admin"⟩⟩ ∧
    ∃ c, validate sampleJwt [] (some ("Bearer " ++ "h.p.s")) 5 = ⟨200, .valid c⟩ ∧
      c.userId = 1 ∧ c.username = "alice" ∧ c.role = "admin" :=
  login_then_validate sampleJwt [] ⟨1, "alice", "password123", "admin"⟩
    (.obj [("username", .str "alice"), ("password", .str "password123")]) 0 5
    (by decide) rfl rfl (by decide)
    ⟨⟨1, "alice", "admin", 0, 3600⟩, by decide, rfl, rfl, rfl⟩ (by decide)

/-! ## The remote verification middleware -/

/-- C4, as stated, fails: the JSON body `{}` is not a well-formed
verification answer, and the middleware reports it as 401 'Invalid token',
not as 503. -/
theorem malformed_answer_reported_invalid :
    wellFormedAnswer (.obj []) = false ∧
    (validateToken (some "Bearer t") (.json 200 (.obj []))).verdict =
      .respond 401 "Invalid token" ∧
    (validateToken (some "Bearer t") (.json 200 (.obj []))).verdict ≠
      .respond 503 "Auth service unavailable" := by
  refine ⟨rfl, rfl, ?_⟩
  intro h
  have h2 : (validateToken (some "Bearer t") (.json 200 (.obj []))).verdict =
      .respond 401 "Invalid token" := rfl
  rw [h2] at h
  injection h with h3 _
  exact absurd h3 (by decide)

/-- C4, amended. The middleware ends in exactly one of four ways. With no
or an empty `Authorization` header: 401 'Authorization header required' and
no call to the auth service. Otherwise the header is forwarded in one call,
and: the fetch rejects, the body is not JSON or is `null`: 503 'Auth service
unavailable'; any other JSON body whose `valid` is absent or falsy: 401
'Invalid token'; a body whose `valid` is truthy: `req.user = data.user` and
`next()`. -/
theorem validateToken_outcomes (authHeader : Option String) (reply : AuthorityReply) :
    ((authHeader = none ∨ authHeader = some "") ∧
      validateToken authHeader reply =
        ⟨[], .respond 401 "Authorization header required"⟩) ∨
    (∃ h, authHeader = some h ∧ h ≠ "" ∧
      ((reply.validField = none ∧
          validateToken authHeader reply = ⟨[h], .respond 503 "Auth service unavailable"⟩) ∨
       (∃ valid, reply.validField = some valid ∧ valid.truthy = false ∧
          validateToken authHeader reply = ⟨[h], .respond 401 "Invalid token"⟩) ∨
       (∃ valid, reply.validField = some valid ∧ valid.truthy = true ∧
          validateToken authHeader reply = ⟨[h], .next reply.userField⟩))) := by
  cases authHeader with
  | none => exact Or.inl ⟨Or.inl rfl, rfl⟩
  | some h =>
    by_cases hh : h = ""
    · subst hh
      exact Or.inl ⟨Or.inr rfl, rfl⟩
    · refine Or.inr ⟨h, rfl, hh, ?_⟩
      cases reply with
      | transportFailure => exact Or.inl ⟨rfl, by simp [validateToken, hh]⟩
      | notJson status => exact Or.inl ⟨rfl, by simp [validateToken, hh]⟩
      | json status data =>
        cases hv : data.prop "valid" with
        | none =>
          exact Or.inl ⟨by simp [AuthorityReply.validField, hv], by simp [validateToken, hh, hv]⟩
        | some valid =>
          cases ht : valid.truthy with
          | false =>
            exact Or.inr (Or.inl ⟨valid, by simp [AuthorityReply.validField, hv], ht,
              by simp [validateToken, hh, hv, ht]⟩)
          | true =>
            exact Or.inr (Or.inr ⟨valid, by simp [AuthorityReply.validField, hv], ht,
              by simp [validateToken, hh, hv, ht, AuthorityReply.userField]⟩)

/-- When the middleware calls `next()`, it has forwarded the header once. -/
theorem validateToken_next (authHeader : Option String) (reply : AuthorityReply) (user : JsVal)
    (hauth : (validateToken authHeader reply).verdict = .next user) :
    ∃ h, authHeader = some h ∧ (validateToken authHeader reply).authorityCalls = [h] := by
  cases authHeader with
  | none => simp [validateToken] at hauth
  | some h =>
    refine ⟨h, rfl, ?_⟩
    by_cases hh : h = ""
    · simp [validateToken, hh] at hauth
    · cases reply with
      | transportFailure => simp [validateToken, hh]
      | notJson status => simp [validateToken, hh]
      | json status data =>
        cases hv : data.prop "valid" with
        | none => simp [validateToken, hh, hv]
        | some valid => cases ht : valid.truthy <;> simp [validateToken, hh, hv, ht]

/-! ## api-gateway: the path that reaches the backend -/

/-- C5, at the claim's own examples. `/api/auth/login` reaches the auth
backend as `/login`, but `/api/inventory/7` reaches the inventory backend as
`/7`, not `/inventory/7`: Express hands the middleware the mount-relative
`req.url`, which the pattern `^/api/inventory` does not match. The same
holds under `/api/profile` and `/api/products`. -/
theorem gateway_backend_paths :
    gateway "/api/auth/login" = some ⟨AUTH_SERVICE_URL, "/login"⟩ ∧
    gateway "/api/inventory/7" = some ⟨INVENTORY_SERVICE_URL, "/7"⟩ ∧
    gateway "/api/inventory/7" ≠ some ⟨INVENTORY_SERVICE_URL, "/inventory/7"⟩ ∧
    gateway "/api/products/999" = some ⟨PRODUCT_SERVICE_URL, "/999"⟩ ∧
    gateway "/api/profile/1" = some ⟨PROFILE_SERVICE_URL, "/1"⟩ := by
  decide

/-- The same requests through a middleware that rewrites the full request
path (the 2.x line): there the rules match. -/
theorem legacy_backend_paths :
    routeThroughLegacy proxyRoutes "/api/auth/login" = some ⟨AUTH_SERVICE_URL, "/login"⟩ ∧
    routeThroughLegacy proxyRoutes "/api/inventory/7" =
      some ⟨INVENTORY_SERVICE_URL, "/inventory/7"⟩ := by
  decide

/-! ## inventory-service: the write and its cascade -/

theorem notifyProductService_events (productId : ProductKey) (stock : ℚ)
    (outcome : NotifyOutcome) :
    ∃ line, line.isConsole = true ∧
      notifyProductService productId stock outcome =
        [.notifyDispatched productId stock (notifyMessage stock), .notifySettled outcome, line] := by
  cases outcome with
  | transportFailure => exact ⟨.consoleError "Could not reach Product Service", rfl, rfl⟩
  | responded status =>
    by_cases hok : (NotifyOutcome.responded status).ok = true
    · exact ⟨.consoleLog "Notified Product Service", rfl, by simp [notifyProductService, hok]⟩
    · exact ⟨.consoleError "Product Service notification failed", rfl,
        by simp [notifyProductService, hok]⟩

/-- An authorised request runs the handler after one call to the auth
service. -/
theorem putInventoryRoute_authorised (parseInt : String → ProductKey) (inventory : Inventory)
    (authHeader : Option String) (reply : AuthorityReply) (param : String) (body : JsVal)
    (outcome : NotifyOutcome) (user : JsVal)
    (hauth : (validateToken authHeader reply).verdict = .next user) :
    ∃ h, authHeader = some h ∧
      (putInventoryRoute parseInt inventory authHeader reply param body outcome).events =
        .authorityCall h :: (putInventory parseInt inventory param body outcome).events ∧
      (putInventoryRoute parseInt inventory authHeader reply param body outcome).store =
        (putInventory parseInt inventory param body outcome).store := by
  obtain ⟨h, hh, hcalls⟩ := validateToken_next authHeader reply user hauth
  refine ⟨h, hh, ?_, ?_⟩
  · simp [putInventoryRoute, hauth, hcalls]
  · simp [putInventoryRoute, hauth]

/-- The run of the handler on an accepted stock value. -/
theorem putInventory_accepted (parseInt : String → ProductKey) (inventory : Inventory)
    (param : String) (body : JsVal) (outcome : NotifyOutcome) (stock : ℚ)
    (hstock : bodyField body "stock" = .num stock) (hnn : 0 ≤ stock) :
    ∃ line, line.isConsole = true ∧
      (putInventory parseInt inventory param body outcome).events =
        [.storeWrite (parseInt param) (writtenRecord inventory (parseInt param) stock),
          .notifyDispatched (parseInt param) stock (notifyMessage stock),
          .notifySettled outcome, line,
          .respond ⟨200, .updated "Inventory updated"
            (writtenRecord inventory (parseInt param) stock)⟩] ∧
      (putInventory parseInt inventory param body outcome).store =
        inventory.set (parseInt param) (writtenRecord inventory (parseInt param) stock) := by
  obtain ⟨line, hline, hev⟩ := notifyProductService_events (parseInt param) stock outcome
  refine ⟨line, hline, ?_, ?_⟩
  · simp only [putInventory, hstock, not_lt.mpr hnn, if_false, hev]
    cases hi : inventory (parseInt param) <;> simp [writtenRecord, hi]
  · simp only [putInventory, hstock, not_lt.mpr hnn, if_false]
    cases hi : inventory (parseInt param) <;> simp [writtenRecord, hi]

/-- The run of the handler on a stock value that is not a non-negative
number. -/
theorem putInventory_rejected (parseInt : String → ProductKey) (inventory : Inventory)
    (param : String) (body : JsVal) (outcome : NotifyOutcome)
    (hbad : ∀ q, bodyField body "stock" = .num q → q < 0) :
    ∃ error, putInventory parseInt inventory param body outcome =
      ⟨[.respond ⟨400, .error error⟩], inventory⟩ := by
  unfold putInventory
  cases hs : bodyField body "stock" with
  | num q => exact ⟨"Stock must be a non-negative number", by simp [hbad q hs]⟩
  | undefined => exact ⟨_, rfl⟩
  | null => exact ⟨_, rfl⟩
  | bool b => exact ⟨_, rfl⟩
  | str t => exact ⟨_, rfl⟩
  | arr l => exact ⟨_, rfl⟩
  | obj l => exact ⟨_, rfl⟩

theorem responseOf_skip (e : Event) (rest : List Event) (he : e.isRespond = false) :
    responseOf (e :: rest) = responseOf rest := by
  cases e <;> simp_all [responseOf, Event.isRespond]

theorem isRespond_of_isConsole (e : Event) (he : e.isConsole = true) : e.isRespond = false := by
  cases e <;> simp_all [Event.isConsole, Event.isRespond]

/-- The run of the whole route on an authorised request with an accepted
stock value. -/
theorem putInventoryRoute_accepted (parseInt : String → ProductKey) (inventory : Inventory)
    (authHeader : Option String) (reply : AuthorityReply) (param : String) (body : JsVal)
    (outcome : NotifyOutcome) (user : JsVal) (stock : ℚ)
    (hauth : (validateToken authHeader reply).verdict = .next user)
    (hstock : bodyField body "stock" = .num stock) (hnn : 0 ≤ stock) :
    ∃ h line, authHeader = some h ∧ line.isConsole = true ∧
      (putInventoryRoute parseInt inventory authHeader reply param body outcome).events =
        [.authorityCall h,
          .storeWrite (parseInt param) (writtenRecord inventory (parseInt param) stock),
          .notifyDispatched (parseInt param) stock (notifyMessage stock),
          .notifySettled outcome, line,
          .respond ⟨200, .updated "Inventory updated"
            (writtenRecord inventory (parseInt param) stock)⟩] ∧
      (putInventoryRoute parseInt inventory authHeader reply param body outcome).store =
        inventory.set (parseInt param) (writtenRecord inventory (parseInt param) stock) := by
  obtain ⟨h, hh, hev, hst⟩ :=
    putInventoryRoute_authorised parseInt inventory authHeader reply param body outcome user hauth
  obtain ⟨line, hline, hev2, hst2⟩ :=
    putInventory_accepted parseInt inventory param body outcome stock hstock hnn
  exact ⟨h, line, hh, hline, by rw [hev, hev2], by rw [hst, hst2]⟩

theorem responseOf_accepted (h : String) (productId : ProductKey) (record : StockRecord)
    (stock : ℚ) (message : String) (outcome : NotifyOutcome) (line : Event)
    (response : InventoryResponse) (hline : line.isConsole = true) :
    responseOf [.authorityCall h, .storeWrite productId record,
      .notifyDispatched productId stock message, .notifySettled outcome, line,
      .respond response] = some response := by
  have hskip := responseOf_skip line [.respond response] (isRespond_of_isConsole _ hline)
  simp only [responseOf, hskip]
  rfl

/-- C6. For an authorised PUT with a non-negative numeric stock, the
response is 200 `{message, inventory}` with the written record and the store
holds that record, whatever the outcome of the notification: two runs that
differ only in that outcome (a 2xx answer, another status, a transport
failure) send the same response and leave the same store. -/
theorem put_unaffected_by_cascade (parseInt : String → ProductKey) (inventory : Inventory)
    (authHeader : Option String) (reply : AuthorityReply) (param : String) (body : JsVal)
    (o1 o2 : NotifyOutcome) (user : JsVal) (stock : ℚ)
    (hauth : (validateToken authHeader reply).verdict = .next user)
    (hstock : bodyField body "stock" = .num stock) (hnn : 0 ≤ stock) :
    responseOf (putInventoryRoute parseInt inventory authHeader reply param body o1).events =
      some ⟨200, .updated "Inventory updated"
        (writtenRecord inventory (parseInt param) stock)⟩ ∧
    responseOf (putInventoryRoute parseInt inventory authHeader reply param body o2).events =
      responseOf (putInventoryRoute parseInt inventory authHeader reply param body o1).events ∧
    (putInventoryRoute parseInt inventory authHeader reply param body o2).store =
      (putInventoryRoute parseInt inventory authHeader reply param body o1).store ∧
    (putInventoryRoute parseInt inventory authHeader reply param body o1).store (parseInt param) =
      some (writtenRecord inventory (parseInt param) stock) ∧
    (writtenRecord inventory (parseInt param) stock).stock = stock := by
  obtain ⟨h1, l1, -, hl1, he1, hs1⟩ := putInventoryRoute_accepted parseInt inventory authHeader
    reply param body o1 user stock hauth hstock hnn
  obtain ⟨h2, l2, -, hl2, he2, hs2⟩ := putInventoryRoute_accepted parseInt inventory authHeader
    reply param body o2 user stock hauth hstock hnn
  have r1 := responseOf_accepted h1 (parseInt param)
    (writtenRecord inventory (parseInt param) stock) stock (notifyMessage stock) o1 l1
    ⟨200, .updated "Inventory updated" (writtenRecord inventory (parseInt param) stock)⟩ hl1
  have r2 := responseOf_accepted h2 (parseInt param)
    (writtenRecord inventory (parseInt param) stock) stock (notifyMessage stock) o2 l2
    ⟨200, .updated "Inventory updated" (writtenRecord inventory (parseInt param) stock)⟩ hl2
  refine ⟨by rw [he1, r1], by rw [he1, he2, r1, r2], by rw [hs1, hs2], ?_, ?_⟩
  · rw [hs1]
    simp [Inventory.set]
  · unfold writtenRecord
    cases inventory (parseInt param) <;> rfl

theorem put_unaffected_by_cascade_witness :
    responseOf (putInventoryRoute parseIntDecimal seedInventory (some "Bearer t")
        sampleValidReply "7" (.obj [("stock", .num 3)]) (.responded 200)).events =
      some ⟨200, .updated "Inventory updated"
        (writtenRecord seedInventory (parseIntDecimal "7") 3)⟩ ∧
    responseOf (putInventoryRoute parseIntDecimal seedInventory (some "Bearer t")
        sampleValidReply "7" (.obj [("stock", .num 3)]) .transportFailure).events =
      responseOf (putInventoryRoute parseIntDecimal seedInventory (some "Bearer t")
        sampleValidReply "7" (.obj [("stock", .num 3)]) (.responded 200)).events ∧
    (putInventoryRoute parseIntDecimal seedInventory (some "Bearer t")
        sampleValidReply "7" (.obj [("stock", .num 3)]) .transportFailure).store =
      (putInventoryRoute parseIntDecimal seedInventory (some "Bearer t")
        sampleValidReply "7" (.obj [("stock", .num 3)]) (.responded 200)).store ∧
    (putInventoryRoute parseIntDecimal seedInventory (some "Bearer t")
        sampleValidReply "7" (.obj [("stock", .num 3)]) (.responded 200)).store
        (parseIntDecimal "7") =
      some (writtenRecord seedInventory (parseIntDecimal "7") 3) ∧
    (writtenRecord seedInventory (parseIntDecimal "7") 3).stock = 3 :=
  put_unaffected_by_cascade parseIntDecimal seedInventory (some "Bearer t") sampleValidReply "7"
    (.obj [("stock", .num 3)]) (.responded 200) .transportFailure
    (.obj [("userId", .num 2), ("username", .str "bob"), ("role", .str "user")]) 3
    rfl rfl (by norm_num)

/-- C7, as stated, fails: in the run of a successful PUT the response is
the last effect, sent after the awaited notification call has settled
(position 5 against position 3). -/
theorem response_waits_for_notification :
    firstIndex Event.isNotifySettled
      (putInventoryRoute parseIntDecimal seedInventory (some "Bearer t") sampleValidReply "8"
        (.obj [("stock", .num 0)]) (.responded 200)).events = some 3 ∧
    firstIndex Event.isRespond
      (putInventoryRoute parseIntDecimal seedInventory (some "Bearer t") sampleValidReply "8"
        (.obj [("stock", .num 0)]) (.responded 200)).events = some 5 := by
  decide

/-- C7, amended. In every successful inventory PUT the effects are, in this
order: the call to the auth service, the store write, the notification
dispatched, the notification call settled (with any outcome), its console
line, and only then the response: the write precedes the dispatch, and
the response follows the completion of the notification. -/
theorem put_effect_order (parseInt : String → ProductKey) (inventory : Inventory)
    (authHeader : Option String) (reply : AuthorityReply) (param : String) (body : JsVal)
    (outcome : NotifyOutcome) (user : JsVal) (stock : ℚ)
    (hauth : (validateToken authHeader reply).verdict = .next user)
    (hstock : bodyField body "stock" = .num stock) (hnn : 0 ≤ stock) :
    (∃ h line, line.isConsole = true ∧
      (putInventoryRoute parseInt inventory authHeader reply param body outcome).events =
        [.authorityCall h,
          .storeWrite (parseInt param) (writtenRecord inventory (parseInt param) stock),
          .notifyDispatched (parseInt param) stock (notifyMessage stock),
          .notifySettled outcome, line,
          .respond ⟨200, .updated "Inventory updated"
            (writtenRecord inventory (parseInt param) stock)⟩]) ∧
    firstIndex Event.isStoreWrite
      (putInventoryRoute parseInt inventory authHeader reply param body outcome).events =
        some 1 ∧
    firstIndex Event.isNotifyDispatched
      (putInventoryRoute parseInt inventory authHeader reply param body outcome).events =
        some 2 ∧
    firstIndex Event.isNotifySettled
      (putInventoryRoute parseInt inventory authHeader reply param body outcome).events =
        some 3 ∧
    firstIndex Event.isRespond
      (putInventoryRoute parseInt inventory authHeader reply param body outcome).events =
        some 5 := by
  obtain ⟨h, line, -, hline, hev, -⟩ := putInventoryRoute_accepted parseInt inventory authHeader
    reply param body outcome user stock hauth hstock hnn
  refine ⟨⟨h, line, hline, hev⟩, ?_, ?_, ?_, ?_⟩ <;> rw [hev] <;>
    cases line <;> simp_all [firstIndex, Event.isConsole, Event.isRespond,
      Event.isNotifySettled, Event.isNotifyDispatched, Event.isStoreWrite]

theorem put_effect_order_witness :
    (∃ h line, line.isConsole = true ∧
      (putInventoryRoute parseIntDecimal seedInventory (some "Bearer t") sampleValidReply "8"
        (.obj [("stock", .num 0)]) (.responded 404)).events =
        [.authorityCall h,
          .storeWrite (parseIntDecimal "8") (writtenRecord seedInventory (parseIntDecimal "8") 0),
          .notifyDispatched (parseIntDecimal "8") 0 (notifyMessage 0),
          .notifySettled (.responded 404), line,
          .respond ⟨200, .updated "Inventory updated"
            (writtenRecord seedInventory (parseIntDecimal "8") 0)⟩]) ∧
    firstIndex Event.isStoreWrite
      (putInventoryRoute parseIntDecimal seedInventory (some "Bearer t") sampleValidReply "8"
        (.obj [("stock", .num 0)]) (.responded 404)).events = some 1 ∧
    firstIndex Event.isNotifyDispatched
      (putInventoryRoute parseIntDecimal seedInventory (some "Bearer t") sampleValidReply "8"
        (.obj [("stock", .num 0)]) (.responded 404)).events = some 2 ∧
    firstIndex Event.isNotifySettled
      (putInventoryRoute parseIntDecimal seedInventory (some "Bearer t") sampleValidReply "8"
        (.obj [("stock", .num 0)]) (.responded 404)).events = some 3 ∧
    firstIndex Event.isRespond
      (putInventoryRoute parseIntDecimal seedInventory (some "Bearer t") sampleValidReply "8"
        (.obj [("stock", .num 0)]) (.responded 404)).events = some 5 :=
  put_effect_order parseIntDecimal seedInventory (some "Bearer t") sampleValidReply "8"
    (.obj [("stock", .num 0)]) (.responded 404)
    (.obj [("userId", .num 2), ("username", .str "bob"), ("role", .str "user")]) 0
    rfl rfl (le_refl 0)

/-- C8. For an authenticated PUT, either the body's `stock` is not a
non-negative number (it is absent, `null`, of another type, or a number
below 0: no number `q` with `0 ≤ q` is its value), and then the service
answers 400, the store is the store before the request, and the run has no
store write and no notification; or `stock` is a number `q` with `0 ≤ q`,
and then the answer is 200, not 400. -/
theorem put_rejects_invalid_stock (parseInt : String → ProductKey) (inventory : Inventory)
    (authHeader : Option String) (reply : AuthorityReply) (param : String) (body : JsVal)
    (outcome : NotifyOutcome) (user : JsVal)
    (hauth : (validateToken authHeader reply).verdict = .next user) :
    ((∀ q, bodyField body "stock" = .num q → q < 0) ∧
      (∃ error,
        responseOf (putInventoryRoute parseInt inventory authHeader reply param body
          outcome).events = some ⟨400, .error error⟩) ∧
      (putInventoryRoute parseInt inventory authHeader reply param body outcome).store =
        inventory ∧
      firstIndex Event.isStoreWrite
        (putInventoryRoute parseInt inventory authHeader reply param body outcome).events =
          none ∧
      firstIndex Event.isNotifyDispatched
        (putInventoryRoute parseInt inventory authHeader reply param body outcome).events =
          none) ∨
    (∃ q, bodyField body "stock" = .num q ∧ 0 ≤ q ∧
      ∃ r, responseOf (putInventoryRoute parseInt inventory authHeader reply param body
          outcome).events = some r ∧ r.status = 200 ∧ r.status ≠ 400) := by
  by_cases hbad : ∀ q, bodyField body "stock" = .num q → q < 0
  · left
    obtain ⟨h, -, hev, hst⟩ := putInventoryRoute_authorised parseInt inventory authHeader reply
      param body outcome user hauth
    obtain ⟨error, hput⟩ := putInventory_rejected parseInt inventory param body outcome hbad
    rw [hput] at hev hst
    refine ⟨hbad, ⟨error, ?_⟩, hst, ?_, ?_⟩ <;> rw [hev] <;>
      simp [responseOf, firstIndex, Event.isStoreWrite, Event.isNotifyDispatched]
  · right
    push_neg at hbad
    obtain ⟨q, hq, hnn⟩ := hbad
    obtain ⟨h, line, -, hline, hev, -⟩ := putInventoryRoute_accepted parseInt inventory
      authHeader reply param body outcome user q hauth hq hnn
    refine ⟨q, hq, hnn, ⟨200, .updated "Inventory updated"
      (writtenRecord inventory (parseInt param) q)⟩, ?_, rfl, by simp⟩
    rw [hev]
    exact responseOf_accepted h _ _ _ _ _ line _ hline

theorem put_rejects_invalid_stock_witness :
    ((∀ q, bodyField (.obj [("stock", .str "12")]) "stock" = .num q → q < 0) ∧
      (∃ error,
        responseOf (putInventoryRoute parseIntDecimal seedInventory (some "Bearer t")
          sampleValidReply "7" (.obj [("stock", .str "12")]) (.responded 200)).events =
            some ⟨400, .error error⟩) ∧
      (putInventoryRoute parseIntDecimal seedInventory (some "Bearer t")
          sampleValidReply "7" (.obj [("stock", .str "12")]) (.responded 200)).store =
        seedInventory ∧
      firstIndex Event.isStoreWrite
        (putInventoryRoute parseIntDecimal seedInventory (some "Bearer t")
          sampleValidReply "7" (.obj [("stock", .str "12")]) (.responded 200)).events = none ∧
      firstIndex Event.isNotifyDispatched
        (putInventoryRoute parseIntDecimal seedInventory (some "Bearer t")
          sampleValidReply "7" (.obj [("stock", .str "12")]) (.responded 200)).events = none) ∨
    (∃ q, bodyField (.obj [("stock", .str "12")]) "stock" = .num q ∧ 0 ≤ q ∧
      ∃ r, responseOf (putInventoryRoute parseIntDecimal seedInventory (some "Bearer t")
          sampleValidReply "7" (.obj [("stock", .str "12")]) (.responded 200)).events =
            some r ∧ r.status = 200 ∧ r.status ≠ 400) :=
  put_rejects_invalid_stock parseIntDecimal seedInventory (some "Bearer t") sampleValidReply "7"
    (.obj [("stock", .str "12")]) (.responded 200)
    (.obj [("userId", .num 2), ("username", .str "bob"), ("role", .str "user")]) rfl

/-- C9. For an accepted stock value (a number `stock ≥ 0`) the run of the
PUT dispatches one notification, for the written product and stock, and its
message is 'Product is out of stock' when `stock = 0`, 'Product has low
stock' when `0 < stock ≤ 5`, and 'Stock level updated' when `5 < stock`. -/
theorem cascade_message (parseInt : String → ProductKey) (inventory : Inventory)
    (authHeader : Option String) (reply : AuthorityReply) (param : String) (body : JsVal)
    (outcome : NotifyOutcome) (user : JsVal) (stock : ℚ)
    (hauth : (validateToken authHeader reply).verdict = .next user)
    (hstock : bodyField body "stock" = .num stock) (hnn : 0 ≤ stock) :
    (putInventoryRoute parseInt inventory authHeader reply param body outcome).events.filter
        Event.isNotifyDispatched =
      [.notifyDispatched (parseInt param) stock (notifyMessage stock)] ∧
    ((stock = 0 ∧ notifyMessage stock = "Product is out of stock") ∨
     (0 < stock ∧ stock ≤ 5 ∧ notifyMessage stock = "Product has low stock") ∨
     (5 < stock ∧ notifyMessage stock = "Stock level updated")) := by
  obtain ⟨h, line, -, hline, hev, -⟩ := putInventoryRoute_accepted parseInt inventory authHeader
    reply param body outcome user stock hauth hstock hnn
  constructor
  · rw [hev]
    cases line <;> simp_all [List.filter, Event.isNotifyDispatched, Event.isConsole]
  · rcases eq_or_lt_of_le hnn with h0 | hpos
    · left
      exact ⟨h0.symm, by simp [notifyMessage, h0.symm]⟩
    · by_cases h5 : stock ≤ 5
      · right; left
        exact ⟨hpos, h5, by simp [notifyMessage, ne_of_gt hpos, h5]⟩
      · right; right
        exact ⟨lt_of_not_le h5, by simp [notifyMessage, ne_of_gt hpos, h5]⟩

theorem cascade_message_witness :
    (putInventoryRoute parseIntDecimal seedInventory (some "Bearer t") sampleValidReply "8"
        (.obj [("stock", .num 0)]) (.responded 200)).events.filter Event.isNotifyDispatched =
      [.notifyDispatched (.int 8) 0 "Product is out of stock"] ∧
    (((0 : ℚ) = 0 ∧ notifyMessage 0 = "Product is out of stock") ∨
     ((0 : ℚ) < 0 ∧ (0 : ℚ) ≤ 5 ∧ notifyMessage 0 = "Product has low stock") ∨
     ((5 : ℚ) < 0 ∧ notifyMessage 0 = "Stock level updated")) :=
  cascade_message parseIntDecimal seedInventory (some "Bearer t") sampleValidReply "8"
    (.obj [("stock", .num 0)]) (.responded 200)
    (.obj [("userId", .num 2), ("username", .str "bob"), ("role", .str "user")]) 0
    rfl rfl (le_refl 0)

/-- C10. For a path parameter whose key has no inventory record and a
non-negative numeric stock `s`, an authorised PUT answers 200 (not 404) and
creates the record `{productId, stock: s, warehouse: 'A'}` under that key,
every other key keeps what it had, and a GET with the same parameter then
answers 200 with exactly that record. -/
theorem put_creates_missing_record (parseInt : String → ProductKey) (inventory : Inventory)
    (authHeader : Option String) (reply : AuthorityReply) (param : String) (body : JsVal)
    (outcome : NotifyOutcome) (user : JsVal) (stock : ℚ)
    (hauth : (validateToken authHeader reply).verdict = .next user)
    (hstock : bodyField body "stock" = .num stock) (hnn : 0 ≤ stock)
    (hmissing : inventory (parseInt param) = none) :
    responseOf (putInventoryRoute parseInt inventory authHeader reply param body outcome).events =
      some ⟨200, .updated "Inventory updated" ⟨parseInt param, stock, "A"⟩⟩ ∧
    (putInventoryRoute parseInt inventory authHeader reply param body outcome).store
        (parseInt param) = some ⟨parseInt param, stock, "A"⟩ ∧
    (∀ k, k ≠ parseInt param →
      (putInventoryRoute parseInt inventory authHeader reply param body outcome).store k =
        inventory k) ∧
    getInventory parseInt
        (putInventoryRoute parseInt inventory authHeader reply param body outcome).store param =
      ⟨200, .record ⟨parseInt param, stock, "A"⟩⟩ := by
  obtain ⟨h, line, -, hline, hev, hst⟩ := putInventoryRoute_accepted parseInt inventory
    authHeader reply param body outcome user stock hauth hstock hnn
  have hrec : writtenRecord inventory (parseInt param) stock = ⟨parseInt param, stock, "A"⟩ := by
    simp [writtenRecord, hmissing]
  rw [hrec] at hev hst
  refine ⟨?_, ?_, ?_, ?_⟩
  · rw [hev]
    exact responseOf_accepted h _ _ _ _ _ line _ hline
  · rw [hst]
    simp [Inventory.set]
  · intro k hk
    rw [hst]
    simp [Inventory.set, hk]
  · rw [hst]
    simp [getInventory, Inventory.set]

theorem put_creates_missing_record_witness :
    responseOf (putInventoryRoute parseIntDecimal seedInventory (some "Bearer t")
        sampleValidReply "9" (.obj [("stock", .num 12)]) .transportFailure).events =
      some ⟨200, .updated "Inventory updated" ⟨parseIntDecimal "9", 12, "A"⟩⟩ ∧
    (putInventoryRoute parseIntDecimal seedInventory (some "Bearer t")
        sampleValidReply "9" (.obj [("stock", .num 12)]) .transportFailure).store
        (parseIntDecimal "9") = some ⟨parseIntDecimal "9", 12, "A"⟩ ∧
    (∀ k, k ≠ parseIntDecimal "9" →
      (putInventoryRoute parseIntDecimal seedInventory (some "Bearer t")
        sampleValidReply "9" (.obj [("stock", .num 12)]) .transportFailure).store k =
        seedInventory k) ∧
    getInventory parseIntDecimal
        (putInventoryRoute parseIntDecimal seedInventory (some "Bearer t")
          sampleValidReply "9" (.obj [("stock", .num 12)]) .transportFailure).store "9" =
      ⟨200, .record ⟨parseIntDecimal "9", 12, "A"⟩⟩ :=
  put_creates_missing_record parseIntDecimal seedInventory (some "Bearer t") sampleValidReply "9"
    (.obj [("stock", .num 12)]) .transportFailure
    (.obj [("userId", .num 2), ("username", .str "bob"), ("role", .str "user")]) 12
    rfl rfl (by norm_num) (by decide)

/-! ## product-service: creating a product -/

theorem seedProductStore_numbered : seedProductStore.Numbered := by
  refine ⟨?_, ?_, rfl⟩
  · intro q hq
    simp only [seedProductStore, seedProducts, List.mem_cons, List.mem_singleton,
      List.not_mem_nil, or_false] at hq
    rcases hq with rfl | rfl | rfl | rfl | rfl | rfl | rfl | rfl <;> decide
  · exact ⟨seedProducts.getLast (by simp [seedProducts]), List.getLast_mem _, rfl⟩

/-- What the handler does once both `name` and `price` are truthy. -/
theorem postProducts_created (parseText : JsVal → JsNumber) (store : ProductStore) (body : JsVal)
    (hname : (bodyField body "name").truthy = true)
    (hprice : (bodyField body "price").truthy = true) :
    postProducts parseText store body =
      (⟨201, .product
          { id := store.nextId,
            name := bodyField body "name",
            description := (bodyField body "description").orElse (.str ""),
            price := parseFloat parseText (bodyField body "price"),
            category := (bodyField body "category").orElse (.str "General"),
            image := (bodyField body "image").orElse
              (.str "https://via.placeholder.com/200?text=Product") }⟩,
        { products := store.products ++
            [{ id := store.nextId,
               name := bodyField body "name",
               description := (bodyField body "description").orElse (.str ""),
               price := parseFloat parseText (bodyField body "price"),
               category := (bodyField body "category").orElse (.str "General"),
               image := (bodyField body "image").orElse
                 (.str "https://via.placeholder.com/200?text=Product") }],
          nextId := store.nextId + 1 }) := by
  simp [postProducts, hname, hprice]

/-- What the handler does when `name` or `price` is falsy. -/
theorem postProducts_rejected (parseText : JsVal → JsNumber) (store : ProductStore) (body : JsVal)
    (hbad : (bodyField body "name").truthy = false ∨ (bodyField body "price").truthy = false) :
    postProducts parseText store body =
      (⟨400, .error "Name and price are required"⟩, store) := by
  rcases hbad with h | h <;> simp [postProducts, h]

/-- The handler keeps the numbering of the store. -/
theorem postProducts_numbered (parseText : JsVal → JsNumber) (store : ProductStore) (body : JsVal)
    (hs : store.Numbered) : (postProducts parseText store body).2.Numbered := by
  by_cases hname : (bodyField body "name").truthy = true
  · by_cases hprice : (bodyField body "price").truthy = true
    · rw [postProducts_created parseText store body hname hprice]
      obtain ⟨hlt, -, hlen⟩ := hs
      refine ⟨?_, ?_, ?_⟩
      · intro q hq
        simp only [List.mem_append, List.mem_singleton] at hq
        rcases hq with hq | rfl
        · exact Nat.lt_succ_of_lt (hlt q hq)
        · exact Nat.lt_succ_self _
      · exact ⟨_, List.mem_append_right _ (List.mem_singleton_self _), rfl⟩
      · simp [hlen]
    · rw [postProducts_rejected parseText store body (Or.inr (by simpa using hprice))]
      exact hs
  · rw [postProducts_rejected parseText store body (Or.inl (by simpa using hname))]
    exact hs

theorem postProductsRoute_numbered (parseText : JsVal → JsNumber) (store : ProductStore)
    (authHeader : Option String) (reply : AuthorityReply) (body : JsVal)
    (hs : store.Numbered) :
    (postProductsRoute parseText store authHeader reply body).2.Numbered := by
  unfold postProductsRoute
  split
  · exact hs
  · split
    · exact hs
    · exact postProducts_numbered parseText store body hs

/-- Every state reached from a numbered store is numbered. -/
theorem productRun_numbered (parseText : JsVal → JsNumber) (requests : List ProductRequest)
    (store : ProductStore) (hs : store.Numbered) :
    (productRun parseText store requests).Numbered := by
  induction requests generalizing store with
  | nil => exact hs
  | cons r rs ih =>
    exact ih _ (postProductsRoute_numbered parseText store r.authHeader r.reply r.body hs)

/-- An admin-authorised request runs the handler. -/
theorem postProductsRoute_admin (parseText : JsVal → JsNumber) (store : ProductStore)
    (authHeader : Option String) (reply : AuthorityReply) (body : JsVal) (user : JsVal)
    (hauth : (validateToken authHeader reply).verdict = .next user)
    (hadmin : user.prop "role" = some (.str "admin")) :
    postProductsRoute parseText store authHeader reply body =
      postProducts parseText store body := by
  simp [postProductsRoute, hauth, requireAdmin, hadmin, JsVal.strictEqStr]

/-- C11, as stated, fails. The body `{name: 'X', price: 0}` has both fields
present and is rejected with 400, the store unchanged; and the body
`{name: 'X', price: 'abc'}` is answered 201 with a record whose price is
`NaN`, not the given value. -/
theorem present_price_rejected :
    (bodyField (.obj [("name", .str "X"), ("price", .num 0)]) "name").present = true ∧
    (bodyField (.obj [("name", .str "X"), ("price", .num 0)]) "price").present = true ∧
    postProductsRoute sampleParseText seedProductStore (some "Bearer t") sampleAdminReply
        (.obj [("name", .str "X"), ("price", .num 0)]) =
      (⟨400, .error "Name and price are required"⟩, seedProductStore) ∧
    (postProductsRoute sampleParseText seedProductStore (some "Bearer t") sampleAdminReply
        (.obj [("name", .str "X"), ("price", .str "abc")])).1.status = 201 ∧
    ((postProductsRoute sampleParseText seedProductStore (some "Bearer t") sampleAdminReply
        (.obj [("name", .str "X"), ("price", .str "abc")])).1.created.map (·.price)) =
      some none := by
  refine ⟨rfl, rfl, ?_, ?_, ?_⟩
  · rw [postProductsRoute_admin sampleParseText seedProductStore (some "Bearer t")
      sampleAdminReply _ _ rfl rfl]
    exact postProducts_rejected _ _ _ (Or.inr (by decide))
  · decide
  · rfl

/-- C11, amended. In every state reached from start-up, an admin-authorised
`POST /products` is rejected with 400, the store unchanged, exactly when
`name` or `price` is falsy (absent, `null`, `false`, `0` or `''`).
Otherwise it answers 201 and appends one record: its id is the length of
the array plus one, above every existing id and one more than an existing
id (9 on the first request after start-up); its name is the given name; its
price is `parseFloat(price)`, which is the given price when that is a
number; description, category and image are the given values when truthy
and `''`, `'General'` and the placeholder image when absent. -/
theorem post_products_create (parseText : JsVal → JsNumber) (earlier : List ProductRequest)
    (authHeader : Option String) (reply : AuthorityReply) (body : JsVal) (user : JsVal)
    (hauth : (validateToken authHeader reply).verdict = .next user)
    (hadmin : user.prop "role" = some (.str "admin")) :
    (((bodyField body "name").truthy = false ∨ (bodyField body "price").truthy = false) ∧
      postProductsRoute parseText (productRun parseText seedProductStore earlier)
          authHeader reply body =
        (⟨400, .error "Name and price are required"⟩,
          productRun parseText seedProductStore earlier)) ∨
    ((bodyField body "name").truthy = true ∧ (bodyField body "price").truthy = true ∧
      ∃ p : Product,
        postProductsRoute parseText (productRun parseText seedProductStore earlier)
            authHeader reply body =
          (⟨201, .product p⟩,
            { products := (productRun parseText seedProductStore earlier).products ++ [p],
              nextId := (productRun parseText seedProductStore earlier).nextId + 1 }) ∧
        p.id = (productRun parseText seedProductStore earlier).products.length + 1 ∧
        (∀ q ∈ (productRun parseText seedProductStore earlier).products, q.id < p.id) ∧
        (∃ q ∈ (productRun parseText seedProductStore earlier).products, q.id + 1 = p.id) ∧
        (earlier = [] → p.id = 9) ∧
        p.name = bodyField body "name" ∧
        p.price = parseFloat parseText (bodyField body "price") ∧
        (∀ q, bodyField body "price" = .num q → p.price = some q) ∧
        ((bodyField body "description").present = false → p.description = .str "") ∧
        ((bodyField body "category").present = false → p.category = .str "General") ∧
        ((bodyField body "image").present = false →
          p.image = .str "https://via.placeholder.com/200?text=Product") ∧
        ((bodyField body "description").truthy = true →
          p.description = bodyField body "description") ∧
        ((bodyField body "category").truthy = true → p.category = bodyField body "category") ∧
        ((bodyField body "image").truthy = true → p.image = bodyField body "image")) := by
  have hnum := productRun_numbered parseText earlier seedProductStore seedProductStore_numbered
  rw [postProductsRoute_admin parseText _ authHeader reply body user hauth hadmin]
  have habsent : ∀ v d : JsVal, v.present = false → v.orElse d = d := by
    intro v d hv
    cases v <;> simp_all [JsVal.present, JsVal.orElse, JsVal.truthy]
  have hgiven : ∀ v d : JsVal, v.truthy = true → v.orElse d = v := by
    intro v d hv
    simp [JsVal.orElse, hv]
  by_cases hname : (bodyField body "name").truthy = true
  · by_cases hprice : (bodyField body "price").truthy = true
    · right
      obtain ⟨hlt, hex, hlen⟩ := hnum
      refine ⟨hname, hprice, _, postProducts_created parseText _ body hname hprice,
        hlen, hlt, hex, ?_, rfl, rfl, ?_, habsent _ _, habsent _ _, habsent _ _,
        hgiven _ _, hgiven _ _, hgiven _ _⟩
      · intro he
        subst he
        rfl
      · intro q hq
        simp [hq, parseFloat]
    · left
      have hp : (bodyField body "price").truthy = false := by simpa using hprice
      exact ⟨Or.inr hp, postProducts_rejected parseText _ body (Or.inr hp)⟩
  · left
    have hn : (bodyField body "name").truthy = false := by simpa using hname
    exact ⟨Or.inl hn, postProducts_rejected parseText _ body (Or.inl hn)⟩

theorem post_products_create_witness :
    (((bodyField (.obj [("name", .str "X"), ("price", .num 10)]) "name").truthy = false ∨
        (bodyField (.obj [("name", .str "X"), ("price", .num 10)]) "price").truthy = false) ∧
      postProductsRoute sampleParseText (productRun sampleParseText seedProductStore [])
            (some "Bearer t") sampleAdminReply
            (.obj [("name", .str "X"), ("price", .num 10)]) =
        (⟨400, .error "Name and price are required"⟩,
          productRun sampleParseText seedProductStore [])) ∨
    ((bodyField (.obj [("name", .str "X"), ("price", .num 10)]) "name").truthy = true ∧
      (bodyField (.obj [("name", .str "X"), ("price", .num 10)]) "price").truthy = true ∧
      ∃ p : Product,
        postProductsRoute sampleParseText (productRun sampleParseText seedProductStore [])
            (some "Bearer t") sampleAdminReply
            (.obj [("name", .str "X"), ("price", .num 10)]) =
          (⟨201, .product p⟩,
            { products := (productRun sampleParseText seedProductStore []).products ++ [p],
              nextId := (productRun sampleParseText seedProductStore []).nextId + 1 }) ∧
        p.id = (productRun sampleParseText seedProductStore []).products.length + 1 ∧
        (∀ q ∈ (productRun sampleParseText seedProductStore []).products, q.id < p.id) ∧
        (∃ q ∈ (productRun sampleParseText seedProductStore []).products, q.id + 1 = p.id) ∧
        (([] : List ProductRequest) = [] → p.id = 9) ∧
        p.name = bodyField (.obj [("name", .str "X"), ("price", .num 10)]) "name" ∧
        p.price = parseFloat sampleParseText
          (bodyField (.obj [("name", .str "X"), ("price", .num 10)]) "price") ∧
        (∀ q, bodyField (.obj [("name", .str "X"), ("price", .num 10)]) "price" = .num q →
          p.price = some q) ∧
        ((bodyField (.obj [("name", .str "X"), ("price", .num 10)]) "description").present = false →
          p.description = .str "") ∧
        ((bodyField (.obj [("name", .str "X"), ("price", .num 10)]) "category").present = false →
          p.category = .str "General") ∧
        ((bodyField (.obj [("name", .str "X"), ("price", .num 10)]) "image").present = false →
          p.image = .str "https://via.placeholder.com/200?text=Product") ∧
        ((bodyField (.obj [("name", .str "X"), ("price", .num 10)]) "description").truthy = true →
          p.description =
            bodyField (.obj [("name", .str "X"), ("price", .num 10)]) "description") ∧
        ((bodyField (.obj [("name", .str "X"), ("price", .num 10)]) "category").truthy = true →
          p.category = bodyField (.obj [("name", .str "X"), ("price", .num 10)]) "category") ∧
        ((bodyField (.obj [("name", .str "X"), ("price", .num 10)]) "image").truthy = true →
          p.image = bodyField (.obj [("name", .str "X"), ("price", .num 10)]) "image")) :=
  post_products_create sampleParseText [] (some "Bearer t") sampleAdminReply
    (.obj [("name", .str "X"), ("price", .num 10)])
    (.obj [("userId", .num 1), ("username", .str "alice"), ("role", .str "admin")]) rfl rfl

end MiniEcommerce
